import Mathlib

/-!
Verification of the MySurgeon row-level-security (RLS) authorization model.

The embedding below translates the SQL schema and `CREATE POLICY`
declarations of the repository's migration file, together with the
`handle_new_user` signup trigger, into executable Lean definitions:

* `Profile`, `VitalSignsRow`, `SurgicalCaseRow`, ... mirror the table
  columns (UUIDs as `Nat`, `TEXT` as `String`, nullable columns as
  `Option`; DB-managed timestamp defaults are bookkeeping with no logic
  attached and are omitted).
* `Policy` is one `CREATE POLICY` declaration: a name, an operation
  scope (`FOR SELECT` / `FOR INSERT` / `FOR UPDATE` / `FOR ALL`), and a
  boolean condition of the profiles table, the caller id (`auth.uid()`)
  and the row.
* `allowed` is PostgreSQL's permissive-policy semantics: an operation on
  a row is admitted iff at least one policy scoped to that operation has
  a true condition.
* `selectRows`, `updateRows` and `affectedCount` are the observable
  query boundary: a select returns exactly the admitted rows, a mutation
  touches exactly the admitted rows.
* `appliesRefs`, `allowedChecked`, `selectRowsChecked` and
  `updateRowsChecked` model the query rewriter: PostgreSQL expands every
  applicable policy into the query, a table referenced inside a policy
  expression is itself RLS-filtered, and the select policies declared ON
  `profiles` subquery `profiles`; so any operation one of whose
  applicable policies subqueries profiles aborts with PostgreSQL error
  42P17 ("infinite recursion detected in policy for relation profiles")
  instead of deciding access.
* `handle_new_user` and `createUser` model the signup trigger and the
  enclosing identity-creation transaction, including the
  `CHECK (role IN ('patient','surgeon','admin'))` column constraint.
  The trigger is `SECURITY DEFINER`, so its insert bypasses RLS and the
  recursion abort does not apply to it.
-/

/-- UUIDs are opaque identifiers; the embedding uses `Nat`. -/
abbrev Uuid := Nat

/-- A row of `public.profiles`:
`id UUID PRIMARY KEY, email TEXT UNIQUE NOT NULL, full_name TEXT NOT NULL,`
`role TEXT NOT NULL CHECK (role IN ('patient','surgeon','admin')),`
`profile_picture_url TEXT` (timestamps omitted). -/
structure Profile where
  id : Uuid
  email : String
  full_name : String
  role : String
  profile_picture_url : Option String
deriving DecidableEq, Repr

/-- The `CHECK (role IN ('patient', 'surgeon', 'admin'))` constraint on
`profiles.role`. -/
def validRole (r : String) : Bool :=
  r == "patient" || r == "surgeon" || r == "admin"

/-- The `PRIMARY KEY` constraint on `profiles.id`: ids are unique. -/
abbrev wfProfiles (db : List Profile) : Prop :=
  (db.map Profile.id).Nodup

/-- A row of `public.vital_signs`. -/
structure VitalSignsRow where
  id : Uuid
  patient_id : Uuid
  heart_rate : Int
  systolic_bp : Int
  diastolic_bp : Int
  body_temperature_celsius : Int
  respiratory_rate : Int
  notes : Option String
deriving DecidableEq, Repr

/-- A row of `public.surgical_history`. -/
structure SurgicalHistoryRow where
  id : Uuid
  patient_id : Uuid
  surgeon_id : Option Uuid
  procedure_name : String
  hospital : String
  surgery_date : Nat
  outcome : Option String
  complications : Option String
  notes : Option String
deriving DecidableEq, Repr

/-- A row of `public.surgical_cases`. -/
structure SurgicalCaseRow where
  id : Uuid
  patient_id : Uuid
  surgeon_id : Option Uuid
  procedure_name : String
  scheduled_date : Option Nat
  status : String
  priority : Option String
  estimated_duration_minutes : Option Int
  notes : Option String
deriving DecidableEq, Repr

/-- A row of `public.patient_details` (JSONB bags as association lists). -/
structure PatientDetailsRow where
  user_id : Uuid
  personal_info : List (String × String)
  physical_info : List (String × String)
  lifestyle_info : List (String × String)
deriving DecidableEq, Repr

/-- A row of `public.surgeon_details`. -/
structure SurgeonDetailsRow where
  user_id : Uuid
  specialty : String
  hospital_affiliation : String
  years_of_experience : Int
  certifications : Option (List String)
  bio : Option String
  consultation_fee : Option Int
deriving DecidableEq, Repr

/-- A row of `public.historical_surgical_data`. -/
structure HistoricalSurgicalDataRow where
  id : Uuid
  hospital_id : String
  week_number : Int
  year : Int
  surgical_volume : Int
  specialty : Option String
  season : Option String
deriving DecidableEq, Repr

/-- The operation classes a policy can be scoped to. -/
inductive Op
  | select
  | insert
  | update
  | delete
deriving DecidableEq, Repr

/-- A policy scope: `FOR SELECT` / `FOR INSERT` / `FOR UPDATE` /
`FOR DELETE` is `Scope.op`, `FOR ALL` is `Scope.all`. -/
inductive Scope
  | op (o : Op)
  | all
deriving DecidableEq, Repr

/-- Whether a policy with this scope applies to the given operation:
an `ALL` policy applies to every operation, an operation-scoped policy
only to that operation. -/
def Scope.applies : Scope → Op → Bool
  | Scope.all, _ => true
  | Scope.op o1, o2 => decide (o1 = o2)

/-- One `CREATE POLICY` declaration on a table with rows of type `Row`:
the policy name, its operation scope, and its condition — a boolean
function of the profiles table (for the `EXISTS` role subqueries), the
caller identity `auth.uid()`, and the row being accessed. -/
structure Policy (Row : Type) where
  name : String
  scope : Scope
  cond : List Profile → Uuid → Row → Bool

/-- The `EXISTS (SELECT 1 FROM public.profiles WHERE id = auth.uid()`
`AND <role condition>)` subquery pattern used by the policies to look up
the caller's own role, evaluated over the raw profiles table. In the
program the subquery is itself RLS-filtered and its rewrite-time
expansion aborts whenever it re-enters profiles; that abort is modelled
separately by `appliesRefs` and the `...Checked` operations below, so
this function gives the subquery's value only where the expansion
succeeds. -/
def existsCallerProfile (db : List Profile) (uid : Uuid) (roleOk : String → Bool) : Bool :=
  db.any (fun p => p.id == uid && roleOk p.role)

/-- PostgreSQL permissive-policy semantics: the operation `o` on row `r`
by caller `uid` is admitted iff at least one policy whose scope covers
`o` has a true condition (policies combine with OR). -/
def allowed {Row : Type} (pols : List (Policy Row)) (db : List Profile)
    (uid : Uuid) (o : Op) (r : Row) : Bool :=
  pols.any (fun pol => pol.scope.applies o && pol.cond db uid r)

/-- A `SELECT` over a table returns exactly the rows admitted for the
select operation; inadmissible rows are silently excluded. -/
def selectRows {Row : Type} (pols : List (Policy Row)) (db : List Profile)
    (uid : Uuid) (tbl : List Row) : List Row :=
  tbl.filter (fun r => allowed pols db uid Op.select r)

/-- An `UPDATE` applying `f` touches exactly the rows admitted for the
update operation and leaves every other row unchanged. -/
def updateRows {Row : Type} (pols : List (Policy Row)) (db : List Profile)
    (uid : Uuid) (f : Row → Row) (tbl : List Row) : List Row :=
  tbl.map (fun r => if allowed pols db uid Op.update r then f r else r)

/-- The number of rows a mutation with operation `o` touches (the
"rows affected" count the caller observes). -/
def affectedCount {Row : Type} (pols : List (Policy Row)) (db : List Profile)
    (uid : Uuid) (o : Op) (tbl : List Row) : Nat :=
  (tbl.filter (fun r => allowed pols db uid o r)).length

/-- The five `CREATE POLICY` declarations on `public.profiles`. -/
def profilesPolicies : List (Policy Profile) := [
  { name := "Users can view their own profile",
    scope := Scope.op Op.select,
    cond := fun _db uid r => uid == r.id },
  { name := "Users can update their own profile",
    scope := Scope.op Op.update,
    cond := fun _db uid r => uid == r.id },
  { name := "Users can insert their own profile",
    scope := Scope.op Op.insert,
    cond := fun _db uid r => uid == r.id },
  { name := "Surgeons can view other profiles",
    scope := Scope.op Op.select,
    cond := fun db uid _r => existsCallerProfile db uid (fun role => role == "surgeon") },
  { name := "Admins can view all profiles",
    scope := Scope.all,
    cond := fun db uid _r => existsCallerProfile db uid (fun role => role == "admin") }
]

/-- The two `CREATE POLICY` declarations on `public.patient_details`. -/
def patientDetailsPolicies : List (Policy PatientDetailsRow) := [
  { name := "Patients can manage their own details",
    scope := Scope.all,
    cond := fun _db uid r => uid == r.user_id },
  { name := "Surgeons can view patient details",
    scope := Scope.op Op.select,
    cond := fun db uid _r =>
      existsCallerProfile db uid (fun role => role == "surgeon" || role == "admin") }
]

/-- The two `CREATE POLICY` declarations on `public.surgeon_details`. -/
def surgeonDetailsPolicies : List (Policy SurgeonDetailsRow) := [
  { name := "Surgeons can manage their own details",
    scope := Scope.all,
    cond := fun _db uid r => uid == r.user_id },
  { name := "Public can view surgeon details",
    scope := Scope.op Op.select,
    cond := fun _db _uid _r => true }
]

/-- The three `CREATE POLICY` declarations on `public.vital_signs`. -/
def vitalSignsPolicies : List (Policy VitalSignsRow) := [
  { name := "Patients can view their own vital signs",
    scope := Scope.op Op.select,
    cond := fun _db uid r => uid == r.patient_id },
  { name := "Patients can insert their own vital signs",
    scope := Scope.op Op.insert,
    cond := fun _db uid r => uid == r.patient_id },
  { name := "Healthcare providers can manage vital signs",
    scope := Scope.all,
    cond := fun db uid _r =>
      existsCallerProfile db uid (fun role => role == "surgeon" || role == "admin") }
]

/-- The two `CREATE POLICY` declarations on `public.surgical_history`. -/
def surgicalHistoryPolicies : List (Policy SurgicalHistoryRow) := [
  { name := "Patients can view their own surgical history",
    scope := Scope.op Op.select,
    cond := fun _db uid r => uid == r.patient_id },
  { name := "Surgeons can view and manage surgical history",
    scope := Scope.all,
    cond := fun db uid _r =>
      existsCallerProfile db uid (fun role => role == "surgeon" || role == "admin") }
]

/-- The two `CREATE POLICY` declarations on `public.surgical_cases`.
`auth.uid() = surgeon_id` on the nullable `surgeon_id` column is false
when `surgeon_id` is NULL. -/
def surgicalCasesPolicies : List (Policy SurgicalCaseRow) := [
  { name := "Patients can view their own cases",
    scope := Scope.op Op.select,
    cond := fun _db uid r => uid == r.patient_id },
  { name := "Surgeons can manage their cases",
    scope := Scope.all,
    cond := fun db uid r =>
      some uid == r.surgeon_id ||
        existsCallerProfile db uid (fun role => role == "admin") }
]

/-- The two `CREATE POLICY` declarations on
`public.historical_surgical_data`. -/
def historicalDataPolicies : List (Policy HistoricalSurgicalDataRow) := [
  { name := "Admins can manage historical data",
    scope := Scope.all,
    cond := fun db uid _r => existsCallerProfile db uid (fun role => role == "admin") },
  { name := "Surgeons can view historical data",
    scope := Scope.op Op.select,
    cond := fun db uid _r =>
      existsCallerProfile db uid (fun role => role == "surgeon" || role == "admin") }
]

/-- The outcome of a query under RLS: either a value, or the query
aborted at rewrite time with PostgreSQL error 42P17, "infinite
recursion detected in policy for relation profiles". -/
inductive RlsOutcome (α : Type)
  | ok (val : α)
  | recursionError
deriving DecidableEq, Repr

/-- Which policies of each table contain an `EXISTS` subquery on
`public.profiles`, in the order of the corresponding policy lists.
PostgreSQL expands every applicable policy into the query at rewrite
time, and a table referenced inside a policy expression is itself
RLS-filtered for the caller, so these subqueries in turn expand the
select policies of profiles. -/
def profilesPoliciesRefs : List Bool := [false, false, false, true, true]

def patientDetailsPoliciesRefs : List Bool := [false, true]

def surgeonDetailsPoliciesRefs : List Bool := [false, false]

def vitalSignsPoliciesRefs : List Bool := [false, false, true]

def surgicalHistoryPoliciesRefs : List Bool := [false, true]

def surgicalCasesPoliciesRefs : List Bool := [false, true]

def historicalDataPoliciesRefs : List Bool := [true, true]

/-- Some policy applicable to operation `o` subqueries
`public.profiles`. In this schema such an expansion always aborts:
expanding the subquery expands the select policies declared ON profiles
("Surgeons can view other profiles", "Admins can view all profiles"),
which themselves subquery profiles, so the rewriter re-enters profiles
(for a query on profiles itself the re-entry is immediate) and
PostgreSQL raises error 42P17 instead of running the query. -/
def appliesRefs {Row : Type} (pols : List (Policy Row)) (refs : List Bool)
    (o : Op) : Bool :=
  (pols.zip refs).any (fun pr => pr.fst.scope.applies o && pr.snd)

/-- `allowed` through the rewriter: when some applicable policy
subqueries profiles, the whole operation aborts with the recursion
error before any predicate is evaluated; otherwise the permissive OR of
`allowed` decides. -/
def allowedChecked {Row : Type} (pols : List (Policy Row)) (refs : List Bool)
    (db : List Profile) (uid : Uuid) (o : Op) (r : Row) : RlsOutcome Bool :=
  if appliesRefs pols refs o then RlsOutcome.recursionError
  else RlsOutcome.ok (allowed pols db uid o r)

/-- `selectRows` through the rewriter. -/
def selectRowsChecked {Row : Type} (pols : List (Policy Row)) (refs : List Bool)
    (db : List Profile) (uid : Uuid) (tbl : List Row) : RlsOutcome (List Row) :=
  if appliesRefs pols refs Op.select then RlsOutcome.recursionError
  else RlsOutcome.ok (selectRows pols db uid tbl)

/-- `updateRows` through the rewriter. -/
def updateRowsChecked {Row : Type} (pols : List (Policy Row)) (refs : List Bool)
    (db : List Profile) (uid : Uuid) (f : Row → Row) (tbl : List Row) :
    RlsOutcome (List Row) :=
  if appliesRefs pols refs Op.update then RlsOutcome.recursionError
  else RlsOutcome.ok (updateRows pols db uid f tbl)

/-- A new identity in the identity store (`auth.users`): id, email and
the `raw_user_meta_data` map (string keys to string values). -/
structure Identity where
  id : Uuid
  email : String
  raw_user_meta_data : List (String × String)
deriving DecidableEq, Repr

/-- The `->>` JSON field access on the metadata map: the value at the
key if present, else NULL. -/
def metaGet (m : List (String × String)) (k : String) : Option String :=
  (m.find? (fun kv => kv.fst == k)).map (fun kv => kv.snd)

/-- The `handle_new_user` trigger function: build the profile row
inserted for a new identity, with
`full_name = COALESCE(raw_user_meta_data->>'full_name', 'Unknown User')`
and `role = COALESCE(raw_user_meta_data->>'role', 'patient')`. -/
def handle_new_user (n : Identity) : Profile :=
  { id := n.id,
    email := n.email,
    full_name := (metaGet n.raw_user_meta_data "full_name").getD "Unknown User",
    role := (metaGet n.raw_user_meta_data "role").getD "patient",
    profile_picture_url := none }

/-- The joint state of the identity store (`auth.users`) and the
`public.profiles` table. -/
structure DbState where
  users : List Identity
  profiles : List Profile
deriving DecidableEq, Repr

/-- The identity-creation transaction: inserting the new identity into
`auth.users` fires the `on_auth_user_created` trigger, which runs
`handle_new_user`; if the inserted profile violates the
`CHECK (role IN ...)` constraint the insert fails and the whole
transaction aborts (`none`): no identity and no profile is created. -/
def createUser (st : DbState) (n : Identity) : Option DbState :=
  let p := handle_new_user n
  if validRole p.role then
    some { users := st.users ++ [n], profiles := st.profiles ++ [p] }
  else
    none

/-- If two profile rows of a well-formed profiles table share an id they
are the same row (the PRIMARY KEY argument). -/
theorem eq_of_mem_of_id_eq {db : List Profile} {p q : Profile}
    (hw : wfProfiles db) (hp : p ∈ db) (hq : q ∈ db) (h : p.id = q.id) :
    p = q :=
  List.inj_on_of_nodup_map hw hp hq h

/-- In a well-formed profiles table, the role-lookup subquery fails when
the caller's profile row does not satisfy the role condition. -/
theorem existsCallerProfile_eq_false {db : List Profile} {cprof : Profile}
    {roleOk : String → Bool} (hw : wfProfiles db) (hmem : cprof ∈ db)
    (hr : roleOk cprof.role = false) :
    existsCallerProfile db cprof.id roleOk = false := by
  rw [existsCallerProfile]
  rw [List.any_eq_false]
  intro p hp
  simp only [Bool.and_eq_true, beq_iff_eq, not_and]
  intro hid
  have hpe : p = cprof := eq_of_mem_of_id_eq hw hp hmem hid
  rw [hpe, hr]
  exact Bool.false_ne_true

/-- Concrete fixtures used by the witnesses below. -/
def profPatW : Profile :=
  { id := 5, email := "p@x.com", full_name := "Pat", role := "patient",
    profile_picture_url := none }

def profSurgW : Profile :=
  { id := 7, email := "s@x.com", full_name := "Sam", role := "surgeon",
    profile_picture_url := none }

def vitalW : VitalSignsRow :=
  { id := 20, patient_id := 1, heart_rate := 70, systolic_bp := 120,
    diastolic_bp := 80, body_temperature_celsius := 37,
    respiratory_rate := 16, notes := none }

def vitalOwnW : VitalSignsRow :=
  { id := 21, patient_id := 5, heart_rate := 75, systolic_bp := 118,
    diastolic_bp := 78, body_temperature_celsius := 37,
    respiratory_rate := 15, notes := none }

def caseW : SurgicalCaseRow :=
  { id := 10, patient_id := 5, surgeon_id := some 6,
    procedure_name := "Appendectomy", scheduled_date := none,
    status := "proposed", priority := none,
    estimated_duration_minutes := none, notes := none }

def caseOtherW : SurgicalCaseRow :=
  { id := 11, patient_id := 8, surgeon_id := some 9,
    procedure_name := "Knee replacement", scheduled_date := none,
    status := "scheduled", priority := some "low",
    estimated_duration_minutes := some 90, notes := none }

def histW : SurgicalHistoryRow :=
  { id := 30, patient_id := 8, surgeon_id := none,
    procedure_name := "Tonsillectomy", hospital := "HOSP001",
    surgery_date := 20200101, outcome := none, complications := none,
    notes := none }

def identW : Identity :=
  { id := 1, email := "a@x.com", raw_user_meta_data := [] }

def identBadRoleW : Identity :=
  { id := 2, email := "b@x.com", raw_user_meta_data := [("role", "doctor")] }

def surgeonDetailsW : SurgeonDetailsRow :=
  { user_id := 7, specialty := "Orthopedic", hospital_affiliation := "HOSP001",
    years_of_experience := 10, certifications := none, bio := none,
    consultation_fee := none }

/-- C1 counterexample: the claim "a row is accessible iff at least one
applicable predicate is true" fails on the program: for a surgeon
caller selecting vital_signs, an applicable predicate ("Healthcare
providers can manage vital signs") is true and yet the select returns
no rows — it aborts with the policy-recursion error. -/
theorem or_combination_counterexample :
    allowed vitalSignsPolicies [profSurgW] profSurgW.id Op.select vitalW = true ∧
    selectRowsChecked vitalSignsPolicies vitalSignsPoliciesRefs
        [profSurgW] profSurgW.id [vitalW] = RlsOutcome.recursionError := by
  decide

/-- C1 (amended): when no policy applicable to the operation subqueries
profiles, the access decision is the logical OR of all predicates
scoped to that table and operation (`ALL`-scoped ones included) — the
operation is admitted on a row iff at least one applicable predicate is
true, and a present row is selected iff such a predicate holds; when
some applicable policy subqueries profiles, the operation aborts with
the policy-recursion error instead of deciding access. -/
theorem or_combination_semantics_checked {Row : Type}
    (pols : List (Policy Row)) (refs : List Bool) (db : List Profile)
    (uid : Uuid) (o : Op) (r : Row) (tbl : List Row) :
    (appliesRefs pols refs o = true →
      allowedChecked pols refs db uid o r = RlsOutcome.recursionError) ∧
    (appliesRefs pols refs o = false →
      allowedChecked pols refs db uid o r = RlsOutcome.ok (allowed pols db uid o r) ∧
      (allowed pols db uid o r = true ↔
        ∃ pol ∈ pols, pol.scope.applies o = true ∧ pol.cond db uid r = true)) ∧
    (appliesRefs pols refs Op.select = false → r ∈ tbl →
      (selectRowsChecked pols refs db uid tbl =
        RlsOutcome.ok (selectRows pols db uid tbl) ∧
      (r ∈ selectRows pols db uid tbl ↔
        ∃ pol ∈ pols, pol.scope.applies Op.select = true ∧
          pol.cond db uid r = true))) := by
  refine ⟨fun hbad => ?_, fun hok => ⟨?_, ?_⟩, fun hsel hr => ⟨?_, ?_⟩⟩
  · simp [allowedChecked, hbad]
  · simp [allowedChecked, hok]
  · simp [allowed, List.any_eq_true, Bool.and_eq_true]
  · simp [selectRowsChecked, hsel]
  · simp only [selectRows, List.mem_filter]
    simp [hr, allowed, List.any_eq_true, Bool.and_eq_true]

/-- C4: provisioning creates exactly one profile row with id and email
taken from the identity, `full_name` from the metadata when present and
`"Unknown User"` otherwise, and `role` from the metadata when present
and `"patient"` otherwise; when the role passes the CHECK constraint the
identity-creation transaction appends exactly that row. -/
theorem handle_new_user_profile_fields (st : DbState) (n : Identity) :
    (handle_new_user n).id = n.id ∧
    (handle_new_user n).email = n.email ∧
    (∀ v, metaGet n.raw_user_meta_data "full_name" = some v →
      (handle_new_user n).full_name = v) ∧
    (metaGet n.raw_user_meta_data "full_name" = none →
      (handle_new_user n).full_name = "Unknown User") ∧
    (∀ v, metaGet n.raw_user_meta_data "role" = some v →
      (handle_new_user n).role = v) ∧
    (metaGet n.raw_user_meta_data "role" = none →
      (handle_new_user n).role = "patient") ∧
    (validRole (handle_new_user n).role = true →
      createUser st n =
        some { users := st.users ++ [n],
               profiles := st.profiles ++ [handle_new_user n] }) := by
  refine ⟨rfl, rfl, fun v hv => ?_, fun hv => ?_, fun v hv => ?_, fun hv => ?_, fun hv => ?_⟩
  · simp [handle_new_user, hv]
  · simp [handle_new_user, hv]
  · simp [handle_new_user, hv]
  · simp [handle_new_user, hv]
  · simp [createUser, hv]

/-- Witness for C4: an identity with empty metadata is provisioned with
full name "Unknown User" and role "patient", and the transaction
appends exactly that one profile row. -/
theorem handle_new_user_profile_fields_witness :
    (handle_new_user identW).full_name = "Unknown User" ∧
    (handle_new_user identW).role = "patient" ∧
    createUser { users := [], profiles := [] } identW =
      some { users := [identW], profiles := [handle_new_user identW] } :=
  ⟨(handle_new_user_profile_fields { users := [], profiles := [] } identW).2.2.2.1 (by decide),
   (handle_new_user_profile_fields { users := [], profiles := [] } identW).2.2.2.2.2.1 (by decide),
   (handle_new_user_profile_fields { users := [], profiles := [] } identW).2.2.2.2.2.2 (by decide)⟩

/-- C5: when the metadata supplies a role outside
{patient, surgeon, admin}, the provisioning insert violates the CHECK
constraint and the whole identity-creation transaction fails atomically:
no profile row and no identity row is created. -/
theorem createUser_invalid_role_fails (st : DbState) (n : Identity) (r : String)
    (h1 : metaGet n.raw_user_meta_data "role" = some r)
    (h2 : validRole r = false) :
    createUser st n = none := by
  have hrole : (handle_new_user n).role = r := by simp [handle_new_user, h1]
  simp [createUser, hrole, h2]

/-- Witness for C5: metadata role "doctor" makes identity creation fail
with no state change. -/
theorem createUser_invalid_role_fails_witness :
    createUser { users := [], profiles := [] } identBadRoleW = none :=
  createUser_invalid_role_fails { users := [], profiles := [] } identBadRoleW
    "doctor" (by decide) (by decide)

/-- C7: a row matched by no predicate is indistinguishable from an
absent row: a select returns the same result whether the inaccessible
row is present or absent, and a mutation reports the same
rows-affected count whether the row is present or absent. -/
theorem inaccessible_row_indistinguishable {Row : Type}
    (pols : List (Policy Row)) (db : List Profile) (uid : Uuid) (r : Row)
    (t1 t2 : List Row) :
    (allowed pols db uid Op.select r = false →
      selectRows pols db uid (t1 ++ r :: t2) = selectRows pols db uid (t1 ++ t2)) ∧
    (∀ o : Op, allowed pols db uid o r = false →
      affectedCount pols db uid o (t1 ++ r :: t2) =
        affectedCount pols db uid o (t1 ++ t2)) := by
  constructor
  · intro h
    simp [selectRows, List.filter_append, List.filter_cons, h]
  · intro o h
    simp [affectedCount, List.filter_append, List.filter_cons, h]

/-- Witness for C7: with no matching predicate (empty profiles table,
foreign caller), a vital-signs row is invisible to select and a
mutation touches zero rows, exactly as if the table were empty. -/
theorem inaccessible_row_indistinguishable_witness :
    selectRows vitalSignsPolicies [] 0 ([] ++ vitalW :: []) =
      selectRows vitalSignsPolicies [] 0 ([] ++ []) ∧
    affectedCount vitalSignsPolicies [] 0 Op.update ([] ++ vitalW :: []) =
      affectedCount vitalSignsPolicies [] 0 Op.update ([] ++ []) :=
  ⟨(inaccessible_row_indistinguishable vitalSignsPolicies [] 0 vitalW [] []).1 (by decide),
   (inaccessible_row_indistinguishable vitalSignsPolicies [] 0 vitalW [] []).2 Op.update (by decide)⟩

/-- C2 (code bug): the spec and the schema's own header comments intend
patients to see exactly their own vital-signs rows and surgeons/admins
to see all of them, but in the program every vital_signs select — the
patient's and the surgeon's alike — aborts with the policy-recursion
error: the "Healthcare providers" `ALL` policy applies to select and
its `EXISTS` on profiles expands profiles' self-referential select
policies. -/
theorem vital_signs_select_recursion_bug :
    selectRowsChecked vitalSignsPolicies vitalSignsPoliciesRefs
        [profPatW] profPatW.id [vitalOwnW, vitalW] = RlsOutcome.recursionError ∧
    selectRowsChecked vitalSignsPolicies vitalSignsPoliciesRefs
        [profSurgW] profSurgW.id [vitalOwnW, vitalW] = RlsOutcome.recursionError := by
  decide

/-- C3: an update of a surgical case by a caller who is not its
surgeon_id and whose profile role is not admin is denied, whatever the
row's patient_id is — in particular for the patient of the case. -/
theorem surgical_case_update_denied (db : List Profile) (cprof : Profile)
    (r : SurgicalCaseRow) (hw : wfProfiles db) (hmem : cprof ∈ db)
    (hrole : cprof.role ≠ "admin") (hsurg : r.surgeon_id ≠ some cprof.id) :
    allowed surgicalCasesPolicies db cprof.id Op.update r = false := by
  have hex : existsCallerProfile db cprof.id (fun role => role == "admin") = false :=
    existsCallerProfile_eq_false hw hmem (by simp [hrole])
  have hs : (some cprof.id == r.surgeon_id) = false := by
    rw [beq_eq_false_iff_ne]
    exact fun hcontra => hsurg hcontra.symm
  simp [allowed, surgicalCasesPolicies, Scope.applies, hex, hs]

/-- Witness for C3: the patient of a case (their id equals the row's
patient_id) with role "patient" cannot update it. -/
theorem surgical_case_update_denied_witness :
    caseW.patient_id = profPatW.id ∧
    allowed surgicalCasesPolicies [profPatW] profPatW.id Op.update caseW = false :=
  ⟨by decide,
   surgical_case_update_denied [profPatW] profPatW caseW
     (by decide) (by decide) (by decide) (by decide)⟩

/-- C6 (code bug): the claim's invariant — the caller can always select
their own profile row, so the role-lookup subqueries never recurse or
fail — is exactly what the code breaks: "Surgeons can view other
profiles" and "Admins can view all profiles" are declared ON profiles
and subquery profiles, so every profiles select (the caller's own row
included) aborts with the policy-recursion error; the first conjunct
records the self-reference of the profiles select policies, the second
evaluates the caller's own-row select to the abort. -/
theorem own_profile_select_recursion_bug :
    appliesRefs profilesPolicies profilesPoliciesRefs Op.select = true ∧
    selectRowsChecked profilesPolicies profilesPoliciesRefs
        [profPatW] profPatW.id [profPatW] = RlsOutcome.recursionError := by
  decide

/-- C8 counterexample: the claim's consequence "a caller may change
their own role" fails on the program: the own-row update predicate is
true, yet the update of one's own profile aborts with the
policy-recursion error (the admin `ALL` policy applies to update and
subqueries profiles), so the role change never happens. -/
theorem own_profile_role_update_counterexample :
    allowed profilesPolicies [profPatW] profPatW.id Op.update profPatW = true ∧
    updateRowsChecked profilesPolicies profilesPoliciesRefs [profPatW] profPatW.id
        (fun p => { p with role := "admin" }) [profPatW] =
      RlsOutcome.recursionError := by
  decide

/-- C8 (amended): the predicates do not protect the role column — the
own-row update predicate is true before and after a role change,
independently of the role value, and the changed row still passes the
CHECK constraint — but no self-update goes through in the program:
every profiles update aborts with the policy-recursion error, so a
caller cannot in fact change their own role through this path. -/
theorem own_profile_role_update_checked (db : List Profile) (r : Profile)
    (newRole : String) (h : validRole newRole = true) :
    allowed profilesPolicies db r.id Op.update r = true ∧
    allowed profilesPolicies db r.id Op.update { r with role := newRole } = true ∧
    validRole ({ r with role := newRole } : Profile).role = true ∧
    updateRowsChecked profilesPolicies profilesPoliciesRefs db r.id
        (fun p => { p with role := newRole }) [r] = RlsOutcome.recursionError := by
  have h1 : allowed profilesPolicies db r.id Op.update r = true := by
    simp [allowed, profilesPolicies, Scope.applies]
  have h2 : allowed profilesPolicies db r.id Op.update { r with role := newRole } = true := by
    simp [allowed, profilesPolicies, Scope.applies]
  exact ⟨h1, h2, h, rfl⟩

/-- Witness for C8: a patient's attempt to set their own role to
"admin" passes the predicate but aborts with the recursion error. -/
theorem own_profile_role_update_checked_witness :
    allowed profilesPolicies [] profPatW.id Op.update profPatW = true ∧
    updateRowsChecked profilesPolicies profilesPoliciesRefs [] profPatW.id
        (fun p => { p with role := "admin" }) [profPatW] =
      RlsOutcome.recursionError :=
  ⟨(own_profile_role_update_checked [] profPatW "admin" (by decide)).1,
   (own_profile_role_update_checked [] profPatW "admin" (by decide)).2.2.2⟩

/-- C9 counterexample: the claim's contrast — the surgeon role grants
access to all VitalSigns rows — fails on the program: the surgeon's
applicable predicate is true, yet the operation aborts with the
policy-recursion error instead of granting access. -/
theorem surgeon_vital_access_counterexample :
    allowed vitalSignsPolicies [profSurgW] profSurgW.id Op.update vitalW = true ∧
    allowedChecked vitalSignsPolicies vitalSignsPoliciesRefs
        [profSurgW] profSurgW.id Op.update vitalW = RlsOutcome.recursionError := by
  decide

/-- C9 (amended): holding the surgeon role alone grants no access to a
surgical case of another surgeon and another patient — every applicable
predicate is false, and in the program the operation aborts with the
policy-recursion error; and unlike the intended contrast, the same
caller's vital_signs and surgical_history operations also abort with
the recursion error for every operation, granting no rows either. -/
theorem surgeon_role_case_access_checked (db : List Profile)
    (cprof : Profile) (r : SurgicalCaseRow) (hw : wfProfiles db)
    (hmem : cprof ∈ db) (hrole : cprof.role = "surgeon")
    (hsurg : r.surgeon_id ≠ some cprof.id) (hpat : r.patient_id ≠ cprof.id) :
    (∀ o : Op, allowed surgicalCasesPolicies db cprof.id o r = false) ∧
    (∀ o : Op, allowedChecked surgicalCasesPolicies surgicalCasesPoliciesRefs
        db cprof.id o r = RlsOutcome.recursionError) ∧
    (∀ (o : Op) (v : VitalSignsRow),
      allowedChecked vitalSignsPolicies vitalSignsPoliciesRefs
        db cprof.id o v = RlsOutcome.recursionError) ∧
    (∀ (o : Op) (s : SurgicalHistoryRow),
      allowedChecked surgicalHistoryPolicies surgicalHistoryPoliciesRefs
        db cprof.id o s = RlsOutcome.recursionError) := by
  have hexAdm : existsCallerProfile db cprof.id (fun role => role == "admin") = false :=
    existsCallerProfile_eq_false hw hmem (by simp [hrole])
  have hs : (some cprof.id == r.surgeon_id) = false := by
    rw [beq_eq_false_iff_ne]
    exact fun hcontra => hsurg hcontra.symm
  have hp : (cprof.id == r.patient_id) = false := by
    rw [beq_eq_false_iff_ne]
    exact fun hcontra => hpat hcontra.symm
  refine ⟨?_, ?_, ?_, ?_⟩
  · intro o
    cases o <;> simp [allowed, surgicalCasesPolicies, Scope.applies, hexAdm, hs, hp]
  · intro o
    cases o <;> rfl
  · intro o v
    cases o <;> rfl
  · intro o s
    cases o <;> rfl

/-- Witness for C9: the unrelated surgeon's select on the case is both
predicate-denied and recursion-aborted, and their vital-signs delete
and surgical-history update abort with the recursion error instead of
succeeding. -/
theorem surgeon_role_case_access_checked_witness :
    allowed surgicalCasesPolicies [profSurgW] profSurgW.id Op.select caseOtherW = false ∧
    allowedChecked surgicalCasesPolicies surgicalCasesPoliciesRefs
        [profSurgW] profSurgW.id Op.select caseOtherW = RlsOutcome.recursionError ∧
    allowedChecked vitalSignsPolicies vitalSignsPoliciesRefs
        [profSurgW] profSurgW.id Op.delete vitalW = RlsOutcome.recursionError ∧
    allowedChecked surgicalHistoryPolicies surgicalHistoryPoliciesRefs
        [profSurgW] profSurgW.id Op.update histW = RlsOutcome.recursionError :=
  ⟨(surgeon_role_case_access_checked [profSurgW] profSurgW caseOtherW
      (by decide) (by decide) (by decide) (by decide) (by decide)).1 Op.select,
   (surgeon_role_case_access_checked [profSurgW] profSurgW caseOtherW
      (by decide) (by decide) (by decide) (by decide) (by decide)).2.1 Op.select,
   (surgeon_role_case_access_checked [profSurgW] profSurgW caseOtherW
      (by decide) (by decide) (by decide) (by decide) (by decide)).2.2.1 Op.delete vitalW,
   (surgeon_role_case_access_checked [profSurgW] profSurgW caseOtherW
      (by decide) (by decide) (by decide) (by decide) (by decide)).2.2.2 Op.update histW⟩

/-- C10: only the admin `ALL` policy covers the delete operation on
profiles, so a caller whose profile role is not admin can delete no
profile row at all — their own row included. -/
theorem non_admin_cannot_delete_profile (db : List Profile) (cprof : Profile)
    (hw : wfProfiles db) (hmem : cprof ∈ db) (hrole : cprof.role ≠ "admin") :
    ∀ r : Profile, allowed profilesPolicies db cprof.id Op.delete r = false := by
  intro r
  have hexAdm : existsCallerProfile db cprof.id (fun role => role == "admin") = false :=
    existsCallerProfile_eq_false hw hmem (by simp [hrole])
  simp [allowed, profilesPolicies, Scope.applies, hexAdm]

/-- Witness for C10: a patient cannot delete even their own profile
row. -/
theorem non_admin_cannot_delete_profile_witness :
    allowed profilesPolicies [profPatW] profPatW.id Op.delete profPatW = false :=
  non_admin_cannot_delete_profile [profPatW] profPatW
    (by decide) (by decide) (by decide) profPatW

/-- Witness for C1: on profiles every select aborts; on surgeon_details
(whose policies subquery nothing) the OR of applicable predicates
decides, and the owner's row is selected because the own-row predicate
holds. -/
theorem or_combination_semantics_checked_witness :
    allowedChecked profilesPolicies profilesPoliciesRefs [] 3 Op.select profPatW =
      RlsOutcome.recursionError ∧
    allowedChecked surgeonDetailsPolicies surgeonDetailsPoliciesRefs [] 7 Op.select
        surgeonDetailsW =
      RlsOutcome.ok (allowed surgeonDetailsPolicies [] 7 Op.select surgeonDetailsW) ∧
    (surgeonDetailsW ∈ selectRows surgeonDetailsPolicies [] 7 [surgeonDetailsW] ↔
      ∃ pol ∈ surgeonDetailsPolicies, pol.scope.applies Op.select = true ∧
        pol.cond [] 7 surgeonDetailsW = true) :=
  ⟨(or_combination_semantics_checked profilesPolicies profilesPoliciesRefs
      [] 3 Op.select profPatW []).1 (by decide),
   ((or_combination_semantics_checked surgeonDetailsPolicies surgeonDetailsPoliciesRefs
      [] 7 Op.select surgeonDetailsW [surgeonDetailsW]).2.1 (by decide)).1,
   ((or_combination_semantics_checked surgeonDetailsPolicies surgeonDetailsPoliciesRefs
      [] 7 Op.select surgeonDetailsW [surgeonDetailsW]).2.2 (by decide) (by decide)).2⟩
